import Mathlib

/-!
# Verification of `quanto/calibrate.py`

A shallow embedding of the calibration mode for quantized modules implemented in
`src/quanto/calibrate.py`, together with proofs about its behaviour.

Tensors are modelled as flat lists of rationals (exact arithmetic; the source uses
floating-point torch tensors, but every property verified here is about exact dataflow,
not rounding).  A quantized tensor (`QTensor`) carries its data together with its
`_scale`.  External collaborators of the file (the `absmax_scale` estimator, the
`QTensor` type, the quantized-module mixin, and the torch hook registry), which live in
the same repository but outside the excerpt under verification, are modelled from the
specification; each such definition says so in its doc comment.
-/

namespace Quanto

/-- A tensor value as seen by the calibration hooks: either a plain tensor or a
quantized tensor (`QTensor`) carrying quantized data together with its `_scale`. -/
inductive Tensor where
  | plain (data : List ℚ)
  | q (data : List ℚ) (scale : List ℚ)
deriving DecidableEq, Repr

/-- `isinstance(input, QTensor)`. -/
def Tensor.isQTensor : Tensor → Bool
  | .q _ _ => true
  | .plain _ => false

/-- The underlying numeric data of a tensor. -/
def Tensor.data : Tensor → List ℚ
  | .plain d => d
  | .q d _ => d

/-- The `_scale` of a quantized tensor (a plain tensor has none; returns `[]`). -/
def Tensor.scale : Tensor → List ℚ
  | .plain _ => []
  | .q _ s => s

/-- Modelled from the spec: `QTensor.dequantize` (defined in `quanto/qtensor.py`, which is
outside the excerpt) produces a plain tensor from the quantized data and its scale; a
scalar (single-element) scale is broadcast over the data. -/
def Tensor.dequantize : Tensor → Tensor
  | .plain d => .plain d
  | .q d [c] => .plain (d.map (fun a => a * c))
  | .q d s => .plain (List.zipWith (fun a b => a * b) d s)

/-- `torch.max` over a one-dimensional tensor.  (torch raises on an empty tensor; no
property below evaluates this at `[]`, where the model returns `0`.) -/
def listMax : List ℚ → ℚ
  | [] => 0
  | h :: t => t.foldl max h

/-- The maximum absolute value of a tensor's elements. -/
def maxAbs (l : List ℚ) : ℚ := listMax (l.map (fun a => |a|))

/-- Modelled from the spec: the activation quantization configuration
(`module.activations`, a quantized data type defined outside the excerpt).  Only the
numeric range bound `qmax` of the target type matters to the scale estimator. -/
structure ActConfig where
  qmax : ℚ
deriving DecidableEq, Repr

/-- Modelled from the spec: `absmax_scale` (defined in `quanto/qtensor.py`, outside the
excerpt) computes a quantization scale from the maximum absolute value of a tensor,
optionally per reduction axis; with `axis = none` it returns a single scalar scale.
Its Python default for `axis` is `None`; the call sites below pass the axis
explicitly. -/
def absmax_scale (t : Tensor) (act : ActConfig) (axis : Option Nat) : List ℚ :=
  match axis with
  | none => [maxAbs t.data / act.qmax]
  | some _ => t.data.map (fun a => |a| / act.qmax)

/-- `_updated_scale` from `calibrate.py` (lines 15-18):

```python
def _updated_scale(scale, new_scale, momentum):
    if torch.all(scale == 1):
        return new_scale
    return momentum * scale + new_scale * (1.0 - momentum)
```

Both scales are one-dimensional tensors of the same shape; the arithmetic is
elementwise with the scalar `momentum` broadcast. -/
def _updated_scale (scale new_scale : List ℚ) (momentum : ℚ) : List ℚ :=
  if scale.all (fun a => a == 1) then new_scale
  else List.zipWith (fun s n => momentum * s + n * (1 - momentum)) scale new_scale

/-- The exponential-moving-average formula exactly as the spec words it:
`momentum * current_scale + (1 - momentum) * new_scale`, elementwise. -/
def spec_ema (momentum : ℚ) (scale new_scale : List ℚ) : List ℚ :=
  List.zipWith (fun s n => momentum * s + (1 - momentum) * n) scale new_scale

/-- C1: the scale update function, given `current_scale`, `new_scale` and `momentum` of
compatible shapes, returns `new_scale` unchanged whenever every element of
`current_scale` equals `1` (the initialization sentinel), and otherwise returns exactly
`momentum * current_scale + (1 - momentum) * new_scale`, for every momentum and every
`new_scale`. -/
theorem updated_scale_correct (s n : List ℚ) (m : ℚ) (hlen : s.length = n.length) :
    ((∀ a ∈ s, a = 1) → _updated_scale s n m = n) ∧
    ((¬ ∀ a ∈ s, a = 1) → _updated_scale s n m = spec_ema m s n) := by
  have hall : (s.all (fun a => a == 1) = true) ↔ (∀ a ∈ s, a = 1) := by
    simp [List.all_eq_true]
  constructor
  · intro h
    simp [_updated_scale, hall.mpr h]
  · intro h
    have hfalse : s.all (fun a => a == 1) = false := by
      cases hb : s.all (fun a => a == 1) with
      | false => rfl
      | true => exact absurd (hall.mp hb) h
    have hfun : (fun a b : ℚ => m * a + b * (1 - m)) = fun a b : ℚ => m * a + (1 - m) * b := by
      funext a b; ring
    simp [_updated_scale, hfalse, spec_ema, hfun]

theorem updated_scale_correct_witness :
    (([2, 3] : List ℚ).length = ([4, 5] : List ℚ).length) ∧
    (¬ ∀ a ∈ ([2, 3] : List ℚ), a = 1) ∧
    _updated_scale [2, 3] [4, 5] (1/2) = spec_ema (1/2) [2, 3] [4, 5] :=
  ⟨by decide, by decide,
    (updated_scale_correct [2, 3] [4, 5] (1/2) (by decide)).2 (by decide)⟩

/-- Modelled from the spec: a quantized module (the `QModuleMixin` capability set, defined
in `quanto/nn`, outside the excerpt).  `is_q` is the result of
`isinstance(module, QModuleMixin)`; `activations` is the activation-quantization
configuration or `none`; `input_scale` and `output_scale` are the mutable per-module
scales; `qforward_fn` is the raw quantized forward path and `forward_fn` the primary
forward path, each a function of the module's current `input_scale` and `output_scale`
and of its first input. -/
structure QModule where
  is_q : Bool
  activations : Option ActConfig
  input_scale : List ℚ
  output_scale : List ℚ
  qforward_fn : List ℚ → List ℚ → Tensor → Tensor
  forward_fn : List ℚ → List ℚ → Tensor → Tensor

/-- The only failure mode of the hooks: `input[0]` on an empty tuple (Python
`IndexError`). -/
inductive CalibError where
  | indexError
deriving DecidableEq, Repr

/-- The result of running a hook: either an error, or the (possibly updated) module
together with the replacement value the hook returns (`none` models Python's implicit
`return None`, under which the framework keeps the original input/output). -/
abbrev HookResult := Except CalibError (QModule × Option Tensor)

/-- The `Calibration` controller state: its configured momentum
(`__init__` default: `0.9`). -/
structure Calibration where
  momentum : ℚ

/-- `if isinstance(qoutput, QTensor): qoutput = qoutput.dequantize()`
(calibrate.py lines 74-75). -/
def dequantizeIfQ (t : Tensor) : Tensor :=
  if t.isQTensor then t.dequantize else t

/-- `Calibration.calibrate_input` from `calibrate.py` (lines 53-63):

```python
def calibrate_input(self, module, input, momentum: float = 0.9):
    if isinstance(module, QModuleMixin) and module.activations is not None:
        input = input[0]
        if isinstance(input, QTensor):
            module.input_scale = torch.max(input._scale)
        else:
            input_scale = absmax_scale(input, module.activations)
            module.input_scale = _updated_scale(module.input_scale, input_scale, momentum)
        return input
```

`self` is unused by the source body, which is exactly why the hook's momentum is the
parameter default rather than `self.momentum`.  The call
`absmax_scale(input, module.activations)` leaves `axis` at its external default `None`.
Mutation of `module.input_scale` is modelled by returning the updated module. -/
def Calibration.calibrate_input (_self : Calibration) (module : QModule)
    (input : List Tensor) (momentum : ℚ) : HookResult :=
  match module.is_q, module.activations with
  | true, some act =>
    match input with
    | [] => Except.error CalibError.indexError
    | x :: _ =>
      match x with
      | Tensor.q d s =>
        Except.ok ({ module with input_scale := [listMax s] }, some (Tensor.q d s))
      | Tensor.plain d =>
        let input_scale := absmax_scale (Tensor.plain d) act none
        Except.ok
          ({ module with
              input_scale := _updated_scale module.input_scale input_scale momentum },
           some (Tensor.plain d))
  | _, _ => Except.ok (module, none)

/-- `Calibration.calibrate_output` from `calibrate.py` (lines 65-80):

```python
def calibrate_output(self, module, input, output):
    if isinstance(module, (QModuleMixin)) and module.activations is not None:
        qoutput = module.qforward(input[0])
        if isinstance(qoutput, QTensor):
            qoutput = qoutput.dequantize()
        output_scale = absmax_scale(qoutput, module.activations, axis=None)
        module.output_scale = _updated_scale(module.output_scale, output_scale, self.momentum)
        return module.forward(input[0])
```

The received `output` argument is never read in the eligible branch.  `qforward` runs
with the module's pre-update scales; `forward` runs after `output_scale` has been
updated. -/
def Calibration.calibrate_output (self : Calibration) (module : QModule)
    (input : List Tensor) (_output : Tensor) : HookResult :=
  match module.is_q, module.activations with
  | true, some act =>
    match input with
    | [] => Except.error CalibError.indexError
    | x :: _ =>
      let qoutput := dequantizeIfQ (module.qforward_fn module.input_scale module.output_scale x)
      let output_scale := absmax_scale qoutput act none
      let module' :=
        { module with
            output_scale := _updated_scale module.output_scale output_scale self.momentum }
      Except.ok (module', some (module'.forward_fn module'.input_scale module'.output_scale x))
  | _, _ => Except.ok (module, none)

/-- The registered forward pre-hook: `register_module_forward_pre_hook(self.calibrate_input)`
(calibrate.py line 45).  The framework invokes the hook with `(module, input)` only, so
the Python parameter default `momentum = 0.9` always applies. -/
def Calibration.preHook (self : Calibration) (module : QModule) (input : List Tensor) :
    HookResult :=
  self.calibrate_input module input (9/10)

/-- The registered forward post-hook: `register_module_forward_hook(self.calibrate_output)`
(calibrate.py line 46), invoked with `(module, input, output)`. -/
def Calibration.postHook (self : Calibration) (module : QModule) (input : List Tensor)
    (output : Tensor) : HookResult :=
  self.calibrate_output module input output

/-- The module recorded in a hook result, if the hook succeeded. -/
def hookModule : HookResult → Option QModule
  | .ok (m, _) => some m
  | .error _ => none

/-- The `input_scale` recorded in a hook result, if the hook succeeded. -/
def hookInputScale : HookResult → Option (List ℚ)
  | .ok (m, _) => some m.input_scale
  | .error _ => none

/-- The `output_scale` recorded in a hook result, if the hook succeeded. -/
def hookOutputScale : HookResult → Option (List ℚ)
  | .ok (m, _) => some m.output_scale
  | .error _ => none

/-- The replacement value returned by a hook, if the hook succeeded. -/
def hookReplacement : HookResult → Option (Option Tensor)
  | .ok (_, r) => some r
  | .error _ => none

/-- Whether a hook invocation completed without raising. -/
def hookOk : HookResult → Bool
  | .ok _ => true
  | .error _ => false

/-! ## Concrete instances used to evaluate the theorems -/

/-- A concrete activation configuration with `qmax = 1`. -/
def actEx : ActConfig := ⟨1⟩

/-- A concrete eligible quantized module whose forward paths are the identity on the
input tensor. -/
def mEx : QModule :=
  { is_q := true
    activations := some actEx
    input_scale := [1]
    output_scale := [1]
    qforward_fn := fun _ _ t => t
    forward_fn := fun _ _ t => t }

/-- The same module with activation quantization disabled. -/
def mOff : QModule := { mEx with activations := none }

/-- A controller configured with momentum `1/2` (different from the hook default). -/
def cHalf : Calibration := ⟨1/2⟩

/-! ## Theorems about the calibration hooks -/

/-- C6: for every module that is not a quantized module or whose activation quantization
is absent, both hooks return nothing and leave the module (hence its `input_scale` and
`output_scale`) unchanged; the framework then keeps the original input and output. -/
theorem hooks_noop_when_ineligible (c : Calibration) (module : QModule)
    (input : List Tensor) (out : Tensor) (mom : ℚ)
    (h : module.is_q = false ∨ module.activations = none) :
    c.calibrate_input module input mom = Except.ok (module, none) ∧
    c.calibrate_output module input out = Except.ok (module, none) := by
  rcases h with h | h
  · constructor <;>
      simp [Calibration.calibrate_input, Calibration.calibrate_output, h]
  · constructor <;>
      cases hq : module.is_q <;>
      simp [Calibration.calibrate_input, Calibration.calibrate_output, h, hq]

theorem hooks_noop_when_ineligible_witness :
    cHalf.calibrate_input mOff [Tensor.plain [2]] (9/10) = Except.ok (mOff, none) ∧
    cHalf.calibrate_output mOff [Tensor.plain [2]] (Tensor.plain [3]) =
      Except.ok (mOff, none) :=
  hooks_noop_when_ineligible cHalf mOff [Tensor.plain [2]] (Tensor.plain [3]) (9/10)
    (Or.inr rfl)

/-- C5: for every eligible module whose first positional input is already a quantized
tensor, the input pre-hook sets `module.input_scale` to the maximum value of that
tensor's `_scale`, independently of the momentum value and of the module's previous
`input_scale`. -/
theorem input_hook_adopts_qtensor_scale (c : Calibration) (module : QModule)
    (d s : List ℚ) (rest : List Tensor) (mom : ℚ) (act : ActConfig)
    (hq : module.is_q = true) (hact : module.activations = some act) :
    c.calibrate_input module (Tensor.q d s :: rest) mom =
      Except.ok ({ module with input_scale := [listMax s] }, some (Tensor.q d s)) ∧
    (∀ prev mom2, hookInputScale
        (c.calibrate_input { module with input_scale := prev } (Tensor.q d s :: rest) mom2) =
      some [listMax s]) := by
  constructor
  · simp [Calibration.calibrate_input, hq, hact]
  · intro prev mom2
    simp [Calibration.calibrate_input, hq, hact, hookInputScale]

theorem input_hook_adopts_qtensor_scale_witness :
    hookInputScale (cHalf.calibrate_input mEx [Tensor.q [5] [1, 3, 2]] (1/2)) =
      some [3] := by
  have h := (input_hook_adopts_qtensor_scale cHalf mEx [5] [1, 3, 2] [] (1/2) actEx
    rfl rfl).1
  rw [h]
  decide

/-- C9: for every eligible module, the input pre-hook's returned replacement is exactly
the first positional input, and the hook's whole result is independent of any additional
positional inputs. -/
theorem input_hook_returns_first_input (c : Calibration) (module : QModule) (x : Tensor)
    (rest rest2 : List Tensor) (mom : ℚ) (act : ActConfig)
    (hq : module.is_q = true) (hact : module.activations = some act) :
    hookReplacement (c.calibrate_input module (x :: rest) mom) = some (some x) ∧
    c.calibrate_input module (x :: rest) mom = c.calibrate_input module (x :: rest2) mom := by
  cases x <;>
    simp [Calibration.calibrate_input, hq, hact, hookReplacement]

theorem input_hook_returns_first_input_witness :
    hookReplacement (cHalf.calibrate_input mEx [Tensor.plain [2], Tensor.plain [3]] (9/10)) =
      some (some (Tensor.plain [2])) :=
  (input_hook_returns_first_input cHalf mEx (Tensor.plain [2]) [Tensor.plain [3]] []
    (9/10) actEx rfl rfl).1

/-- C10: both hooks index the positional-input tuple at position 0 without a guard: for
every eligible module they fail with an index error on an empty input tuple, and succeed
on every input tuple with at least one element. -/
theorem hooks_index_first_input_unguarded (c : Calibration) (module : QModule) (mom : ℚ)
    (out : Tensor) (act : ActConfig)
    (hq : module.is_q = true) (hact : module.activations = some act) :
    c.calibrate_input module [] mom = Except.error CalibError.indexError ∧
    c.calibrate_output module [] out = Except.error CalibError.indexError ∧
    (∀ x rest, hookOk (c.calibrate_input module (x :: rest) mom) = true ∧
      hookOk (c.calibrate_output module (x :: rest) out) = true) := by
  refine ⟨?_, ?_, ?_⟩
  · simp [Calibration.calibrate_input, hq, hact]
  · simp [Calibration.calibrate_output, hq, hact]
  · intro x rest
    cases x <;>
      simp [Calibration.calibrate_input, Calibration.calibrate_output, hq, hact, hookOk]

theorem hooks_index_first_input_unguarded_witness :
    cHalf.calibrate_input mEx [] (9/10) = Except.error CalibError.indexError ∧
    cHalf.calibrate_output mEx [] (Tensor.plain [3]) = Except.error CalibError.indexError ∧
    hookOk (cHalf.calibrate_input mEx [Tensor.plain [2]] (9/10)) = true :=
  have h := hooks_index_first_input_unguarded cHalf mEx (9/10) (Tensor.plain [3]) actEx
    rfl rfl
  ⟨h.1, h.2.1, (h.2.2 (Tensor.plain [2]) []).1⟩

/-- C2: for every eligible module and first positional input `x`, the output post-hook's
result is independent of the output argument it received; the candidate scale is computed
by the absolute-max estimator with `axis = None` applied to the (dequantized if needed)
recomputed raw output `qforward(x)`, and is a single scalar; `output_scale` is set to the
scale update function applied with the controller's configured momentum; and the returned
replacement output is `module.forward(x)` computed after the scale update. -/
theorem output_hook_correct (c : Calibration) (module : QModule) (x out out2 : Tensor)
    (rest : List Tensor) (act : ActConfig)
    (hq : module.is_q = true) (hact : module.activations = some act) :
    c.postHook module (x :: rest) out = c.postHook module (x :: rest) out2 ∧
    (absmax_scale (dequantizeIfQ (module.qforward_fn module.input_scale module.output_scale x))
        act none).length = 1 ∧
    c.postHook module (x :: rest) out =
      Except.ok
        ({ module with
            output_scale := _updated_scale module.output_scale
              (absmax_scale
                (dequantizeIfQ (module.qforward_fn module.input_scale module.output_scale x))
                act none)
              c.momentum },
         some (module.forward_fn module.input_scale
            (_updated_scale module.output_scale
              (absmax_scale
                (dequantizeIfQ (module.qforward_fn module.input_scale module.output_scale x))
                act none)
              c.momentum)
            x)) := by
  refine ⟨rfl, ?_, ?_⟩
  · simp [absmax_scale]
  · simp [Calibration.postHook, Calibration.calibrate_output, hq, hact]

theorem output_hook_correct_witness :
    cHalf.postHook mEx [Tensor.plain [2]] (Tensor.plain [7]) =
      Except.ok
        ({ mEx with
            output_scale := _updated_scale mEx.output_scale
              (absmax_scale
                (dequantizeIfQ (mEx.qforward_fn mEx.input_scale mEx.output_scale (Tensor.plain [2])))
                actEx none)
              cHalf.momentum },
         some (mEx.forward_fn mEx.input_scale
            (_updated_scale mEx.output_scale
              (absmax_scale
                (dequantizeIfQ (mEx.qforward_fn mEx.input_scale mEx.output_scale (Tensor.plain [2])))
                actEx none)
              cHalf.momentum)
            (Tensor.plain [2]))) :=
  (output_hook_correct cHalf mEx (Tensor.plain [2]) (Tensor.plain [7]) (Tensor.plain [8])
    [] actEx rfl rfl).2.2

/-- C4: for every eligible module with a plain first input, the registered input pre-hook
updates `input_scale` with the momentum default `0.9` of its own parameter — even when
the controller's configured momentum differs from `0.9` — while the output post-hook
updates `output_scale` with the controller's configured momentum. -/
theorem input_hook_uses_default_momentum (c : Calibration) (module : QModule) (d : List ℚ)
    (rest : List Tensor) (out : Tensor) (act : ActConfig)
    (hq : module.is_q = true) (hact : module.activations = some act)
    (hm : c.momentum ≠ 9/10) :
    hookInputScale (c.preHook module (Tensor.plain d :: rest)) =
      some (_updated_scale module.input_scale (absmax_scale (Tensor.plain d) act none) (9/10)) ∧
    hookOutputScale (c.postHook module (Tensor.plain d :: rest) out) =
      some (_updated_scale module.output_scale
        (absmax_scale
          (dequantizeIfQ (module.qforward_fn module.input_scale module.output_scale (Tensor.plain d)))
          act none)
        c.momentum) := by
  constructor <;>
    simp [Calibration.preHook, Calibration.postHook, Calibration.calibrate_input,
      Calibration.calibrate_output, hq, hact, hookInputScale, hookOutputScale]

theorem input_hook_uses_default_momentum_witness :
    cHalf.momentum ≠ 9/10 ∧
    hookInputScale (cHalf.preHook mEx [Tensor.plain [2]]) =
      some (_updated_scale mEx.input_scale (absmax_scale (Tensor.plain [2]) actEx none) (9/10)) ∧
    hookInputScale (cHalf.preHook mEx [Tensor.plain [2]]) = some [2] := by
  have h := input_hook_uses_default_momentum cHalf mEx [2] [] (Tensor.plain [3]) actEx
    rfl rfl (by norm_num [cHalf])
  refine ⟨by norm_num [cHalf], h.1, ?_⟩
  rw [h.1]
  norm_num [mEx, actEx, _updated_scale, absmax_scale, maxAbs, listMax, Tensor.data]

/-! ## Scope lifecycle

`Calibration.__enter__` / `__exit__` (calibrate.py lines 43-51):

```python
def __enter__(self):
    super().__enter__()
    self.pre_handle = register_module_forward_pre_hook(self.calibrate_input)
    self.post_handle = register_module_forward_hook(self.calibrate_output)

def __exit__(self, exc_type, exc_val, exc_tb):
    super().__exit__(exc_type, exc_val, exc_tb)
    self.pre_handle.remove()
    self.post_handle.remove()
```

The torch hook registry and `TorchFunctionMode` stack (both outside the excerpt) are
modelled from the spec as process-wide state: registered hook handles are identified by
fresh ids, and `super().__enter__()` / `super().__exit__()` push / pop the
function-dispatch interception mode. -/

/-- Modelled from the spec: the process-wide registration state — the registered forward
pre-hook handles, the registered forward (post-)hook handles, a counter supplying fresh
handle ids, and the depth of the function-dispatch interception mode stack. -/
structure RegState where
  nextId : Nat
  preHooks : List Nat
  postHooks : List Nat
  modeDepth : Nat
deriving DecidableEq, Repr

/-- The pair of hook handles stored on the controller between enter and exit. -/
structure Handles where
  pre : Nat
  post : Nat
deriving DecidableEq, Repr

/-- Modelled from the spec: `torch.nn.modules.module.register_module_forward_pre_hook`
appends a fresh global pre-hook and returns its removable handle. -/
def register_module_forward_pre_hook (st : RegState) : RegState × Nat :=
  ({ st with nextId := st.nextId + 1, preHooks := st.preHooks ++ [st.nextId] }, st.nextId)

/-- Modelled from the spec: `torch.nn.modules.module.register_module_forward_hook`
appends a fresh global post-hook and returns its removable handle. -/
def register_module_forward_hook (st : RegState) : RegState × Nat :=
  ({ st with nextId := st.nextId + 1, postHooks := st.postHooks ++ [st.nextId] }, st.nextId)

/-- Modelled from the spec: `handle.remove()` for a pre-hook handle. -/
def removePreHandle (st : RegState) (h : Nat) : RegState :=
  { st with preHooks := st.preHooks.filter (fun i => i != h) }

/-- Modelled from the spec: `handle.remove()` for a post-hook handle. -/
def removePostHandle (st : RegState) (h : Nat) : RegState :=
  { st with postHooks := st.postHooks.filter (fun i => i != h) }

/-- Modelled from the spec: `TorchFunctionMode.__enter__` activates function-dispatch
interception (pushes the mode). -/
def modePush (st : RegState) : RegState := { st with modeDepth := st.modeDepth + 1 }

/-- Modelled from the spec: `TorchFunctionMode.__exit__` deactivates function-dispatch
interception (pops the mode). -/
def modePop (st : RegState) : RegState := { st with modeDepth := st.modeDepth - 1 }

/-- `Calibration.__enter__` (calibrate.py lines 43-46): activate interception, then
register the pre-hook, then the post-hook, keeping both handles. -/
def scopeEnter (st : RegState) : RegState × Handles :=
  let st1 := modePush st
  let r1 := register_module_forward_pre_hook st1
  let r2 := register_module_forward_hook r1.1
  (r2.1, ⟨r1.2, r2.2⟩)

/-- `Calibration.__exit__` (calibrate.py lines 48-51): `super().__exit__` first
(deactivating interception), then `pre_handle.remove()`, then `post_handle.remove()`. -/
def scopeExit (st : RegState) (h : Handles) : RegState :=
  removePostHandle (removePreHandle (modePop st) h.pre) h.post

/-- Modelled from the spec: the Python `with Calibration(...)` statement — `__enter__`,
then the body, then `__exit__` on every path; when the body raises, `__exit__` still runs
and the error propagates (the context manager does not suppress it).  The body threads
the registration state and yields either a value or an error. -/
def withCalibration {E α : Type} (st : RegState)
    (body : RegState → RegState × Except E α) : RegState × Except E α :=
  let r := scopeEnter st
  let b := body r.1
  (scopeExit b.1 r.2, b.2)

/-- Well-formedness of the registration state: every registered handle id was issued by
the fresh-id counter. -/
def RegState.WF (st : RegState) : Bool :=
  st.preHooks.all (fun i => i < st.nextId) && st.postHooks.all (fun i => i < st.nextId)

/-- A scope body that does not itself register or deregister hooks (forward passes do
not touch the hook registry). -/
def PreservesRegistry {E α : Type} (body : RegState → RegState × Except E α) : Prop :=
  ∀ st, (body st).1.nextId = st.nextId ∧ (body st).1.preHooks = st.preHooks ∧
    (body st).1.postHooks = st.postHooks

/-- The sequence of primitive operations (as events) performed by the lifecycle
methods. -/
inductive LifecycleEvent where
  | activateInterception
  | deactivateInterception
  | registerPreHook
  | registerPostHook
  | removePreHook
  | removePostHook
deriving DecidableEq, Repr

/-- The effect of one lifecycle event on the registration state, with `h` the pair of
handles held by the controller. -/
def applyEvent (h : Handles) (st : RegState) : LifecycleEvent → RegState
  | .activateInterception => modePush st
  | .deactivateInterception => modePop st
  | .registerPreHook => (register_module_forward_pre_hook st).1
  | .registerPostHook => (register_module_forward_hook st).1
  | .removePreHook => removePreHandle st h.pre
  | .removePostHook => removePostHandle st h.post

/-- The event trace of `Calibration.__enter__` (calibrate.py lines 43-46), in statement
order: `super().__enter__()`, register pre-hook, register post-hook. -/
def enterEvents : List LifecycleEvent :=
  [.activateInterception, .registerPreHook, .registerPostHook]

/-- The event trace of `Calibration.__exit__` (calibrate.py lines 48-51), in statement
order: `super().__exit__(...)`, `pre_handle.remove()`, `post_handle.remove()`. -/
def exitEvents : List LifecycleEvent :=
  [.deactivateInterception, .removePreHook, .removePostHook]

/-- Whether, in a trace, both hook removals happen strictly before interception is
deactivated. -/
def hooksRemovedBeforeDeactivation (evs : List LifecycleEvent) : Bool :=
  decide (evs.indexOf LifecycleEvent.removePreHook <
      evs.indexOf LifecycleEvent.deactivateInterception) &&
  decide (evs.indexOf LifecycleEvent.removePostHook <
      evs.indexOf LifecycleEvent.deactivateInterception)

/-- Whether, in a trace, interception is deactivated strictly before both hook
removals. -/
def deactivationBeforeHookRemovals (evs : List LifecycleEvent) : Bool :=
  decide (evs.indexOf LifecycleEvent.deactivateInterception <
      evs.indexOf LifecycleEvent.removePreHook) &&
  decide (evs.indexOf LifecycleEvent.deactivateInterception <
      evs.indexOf LifecycleEvent.removePostHook)

/-- C3 counterexample: the exit trace of `Calibration.__exit__` does not deregister the
hooks before deactivating function-dispatch interception — `super().__exit__` is the
first statement of the method. -/
theorem exit_does_not_remove_hooks_first :
    hooksRemovedBeforeDeactivation exitEvents = false := by
  decide

/-- C3 (amended): on every exit the controller deactivates function-dispatch
interception first and only then deregisters the two hooks — the same relative order as
entry (which activates interception before registering the hooks), not the reverse.  The
event traces are exactly the semantics of `scopeExit` and `scopeEnter`. -/
theorem exit_order_matches_entry_order :
    (∀ st h, scopeExit st h = exitEvents.foldl (applyEvent h) st) ∧
    (∀ st, (scopeEnter st).1 =
      enterEvents.foldl (applyEvent ⟨st.nextId, st.nextId + 1⟩) st) ∧
    deactivationBeforeHookRemovals exitEvents = true ∧
    hooksRemovedBeforeDeactivation exitEvents = false := by
  refine ⟨fun st h => rfl, fun st => rfl, by decide, by decide⟩

/-! ## Registry bookkeeping lemmas shared by the scope theorems -/

theorem filter_append_fresh (l : List Nat) (m : Nat) (h : ∀ i ∈ l, i ≠ m) :
    (l ++ [m]).filter (fun i => i != m) = l := by
  rw [List.filter_append]
  have h1 : l.filter (fun i => i != m) = l :=
    List.filter_eq_self.mpr (fun a ha => by simpa using h a ha)
  simp [h1]

theorem scopeEnter_fields (st : RegState) :
    (scopeEnter st).1.preHooks = st.preHooks ++ [st.nextId] ∧
    (scopeEnter st).1.postHooks = st.postHooks ++ [st.nextId + 1] ∧
    (scopeEnter st).1.nextId = st.nextId + 2 ∧
    (scopeEnter st).2 = ⟨st.nextId, st.nextId + 1⟩ :=
  ⟨rfl, rfl, rfl, rfl⟩

theorem scopeExit_fields (st : RegState) (h : Handles) :
    (scopeExit st h).preHooks = st.preHooks.filter (fun i => i != h.pre) ∧
    (scopeExit st h).postHooks = st.postHooks.filter (fun i => i != h.post) ∧
    (scopeExit st h).nextId = st.nextId :=
  ⟨rfl, rfl, rfl⟩

theorem withCalibration_eq {E α : Type} (st : RegState)
    (body : RegState → RegState × Except E α) :
    withCalibration st body =
      (scopeExit (body (scopeEnter st).1).1 ⟨st.nextId, st.nextId + 1⟩,
       (body (scopeEnter st).1).2) :=
  rfl

/-- One scope leaves the hook registry exactly as it found it (for a well-formed initial
state and a body that does not touch the registry), advances the fresh-id counter by
two, and yields the body's result unchanged. -/
theorem withCalibration_registry {E α : Type} (st : RegState)
    (body : RegState → RegState × Except E α)
    (hwf : st.WF = true) (hp : PreservesRegistry body) :
    (withCalibration st body).1.preHooks = st.preHooks ∧
    (withCalibration st body).1.postHooks = st.postHooks ∧
    (withCalibration st body).1.nextId = st.nextId + 2 ∧
    (withCalibration st body).2 = (body (scopeEnter st).1).2 := by
  simp only [RegState.WF, Bool.and_eq_true, List.all_eq_true, decide_eq_true_eq] at hwf
  obtain ⟨hwf1, hwf2⟩ := hwf
  obtain ⟨hn, hpre, hpost⟩ := hp (scopeEnter st).1
  rw [withCalibration_eq]
  refine ⟨?_, ?_, ?_, rfl⟩
  · rw [(scopeExit_fields _ _).1, hpre, (scopeEnter_fields st).1]
    exact filter_append_fresh _ _ (fun i hi => Nat.ne_of_lt (hwf1 i hi))
  · rw [(scopeExit_fields _ _).2.1, hpost, (scopeEnter_fields st).2.1]
    exact filter_append_fresh _ _
      (fun i hi => by have := hwf2 i hi; show i ≠ st.nextId + 1; omega)
  · rw [(scopeExit_fields _ _).2.2, hn, (scopeEnter_fields st).2.2.1]

/-- C7: scope exit deregisters both the pre-hook and the post-hook even when the scope
body raised an error, and the error still propagates to the caller; after exit exactly
the hooks registered before entry remain. -/
theorem scope_exit_deregisters_on_error {E α : Type} (st : RegState)
    (body : RegState → RegState × Except E α) (e : E)
    (hwf : st.WF = true) (hp : PreservesRegistry body)
    (herr : (body (scopeEnter st).1).2 = Except.error e) :
    (withCalibration st body).1.preHooks = st.preHooks ∧
    (withCalibration st body).1.postHooks = st.postHooks ∧
    (withCalibration st body).2 = Except.error e := by
  obtain ⟨h1, h2, _, h4⟩ := withCalibration_registry st body hwf hp
  exact ⟨h1, h2, h4.trans herr⟩

theorem scope_exit_deregisters_on_error_witness :
    (withCalibration ⟨0, [], [], 0⟩
        (fun s => (s, (Except.error 0 : Except Nat Unit)))).1.preHooks = [] ∧
    (withCalibration ⟨0, [], [], 0⟩
        (fun s => (s, (Except.error 0 : Except Nat Unit)))).1.postHooks = [] ∧
    (withCalibration ⟨0, [], [], 0⟩
        (fun s => (s, (Except.error 0 : Except Nat Unit)))).2 = Except.error 0 :=
  scope_exit_deregisters_on_error ⟨0, [], [], 0⟩ _ 0 (by decide)
    (fun _ => ⟨rfl, rfl, rfl⟩) rfl

/-- C8: two non-overlapping calibration scopes in sequence behave like two independent
single passes: after the first exit exactly the initial hooks remain, the second enter
registers exactly one additional pre-hook and one additional post-hook, and after the
second exit again exactly the initial hooks remain — no double registration and no
leakage. -/
theorem sequential_scopes_no_leak {E α : Type} (st : RegState)
    (body1 body2 : RegState → RegState × Except E α)
    (hwf : st.WF = true) (h1 : PreservesRegistry body1) (h2 : PreservesRegistry body2) :
    (withCalibration st body1).1.preHooks = st.preHooks ∧
    (withCalibration st body1).1.postHooks = st.postHooks ∧
    (scopeEnter (withCalibration st body1).1).1.preHooks.length = st.preHooks.length + 1 ∧
    (scopeEnter (withCalibration st body1).1).1.postHooks.length = st.postHooks.length + 1 ∧
    (withCalibration (withCalibration st body1).1 body2).1.preHooks = st.preHooks ∧
    (withCalibration (withCalibration st body1).1 body2).1.postHooks = st.postHooks := by
  obtain ⟨a1, a2, a3, _⟩ := withCalibration_registry st body1 hwf h1
  have hwf1 : (withCalibration st body1).1.WF = true := by
    simp only [RegState.WF, Bool.and_eq_true, List.all_eq_true, decide_eq_true_eq]
      at hwf ⊢
    simp only [a1, a2, a3]
    exact ⟨fun i hi => by have := hwf.1 i hi; omega,
           fun i hi => by have := hwf.2 i hi; omega⟩
  obtain ⟨b1, b2, _, _⟩ := withCalibration_registry _ body2 hwf1 h2
  refine ⟨a1, a2, ?_, ?_, b1.trans a1, b2.trans a2⟩
  · rw [(scopeEnter_fields _).1, List.length_append, a1]
    simp
  · rw [(scopeEnter_fields _).2.1, List.length_append, a2]
    simp

theorem sequential_scopes_no_leak_witness :
    (withCalibration ⟨0, [], [], 0⟩
        (fun s => (s, (Except.ok () : Except Nat Unit)))).1.preHooks = [] ∧
    (scopeEnter (withCalibration ⟨0, [], [], 0⟩
        (fun s => (s, (Except.ok () : Except Nat Unit)))).1).1.preHooks.length = 1 ∧
    (withCalibration (withCalibration ⟨0, [], [], 0⟩
          (fun s => (s, (Except.ok () : Except Nat Unit)))).1
        (fun s => (s, (Except.ok () : Except Nat Unit)))).1.preHooks = [] ∧
    (withCalibration (withCalibration ⟨0, [], [], 0⟩
          (fun s => (s, (Except.ok () : Except Nat Unit)))).1
        (fun s => (s, (Except.ok () : Except Nat Unit)))).1.postHooks = [] :=
  have h := sequential_scopes_no_leak ⟨0, [], [], 0⟩
    (fun s => (s, (Except.ok () : Except Nat Unit)))
    (fun s => (s, (Except.ok () : Except Nat Unit)))
    (by decide) (fun _ => ⟨rfl, rfl, rfl⟩) (fun _ => ⟨rfl, rfl, rfl⟩)
  ⟨h.1, h.2.2.1, h.2.2.2.2.1, h.2.2.2.2.2⟩

end Quanto
